import Mathlib

/-!
Verification development for the voice-companion backend
(content-safety gate, tone/intent classifier, voice-parameter
modulator, phrase selector, persona store, chat-turn orchestrator).

Shallow embedding conventions:
* Python floats are modelled as exact rationals (`Rat`); the decimal
  literals in the source are exactly representable.
* External effects (the regex engine, the JSON decoder, the
  generative-model calls, the speech synthesiser, the random number
  stream) are passed in as explicit function/value parameters, so that
  every theorem quantifies over their behaviour.
* `re.search` is modelled as `search : String → String → Option Bool`
  taking the pattern and the (lower-cased) text; `Option.none` models a
  pattern that raises `re.error` (the source skips such patterns).
-/

/-! ## Python string helpers

The Python code uses `str.strip`, `str.startswith`, `str.split` and
slicing.  We model them on the character list underlying a `String`
(so every definition reduces inside the kernel). -/

/-- Python truthiness test `not s or not s.strip()`: `s` is empty or
consists of whitespace only (the empty case is subsumed, since `all`
on `[]` is `true`). -/
def pyBlank (s : String) : Bool :=
  s.data.all Char.isWhitespace

/-- Python `s.strip()`: drop leading and trailing whitespace. -/
def pyStrip (s : String) : String :=
  ⟨((s.data.dropWhile Char.isWhitespace).reverse.dropWhile Char.isWhitespace).reverse⟩

/-- Python `s.startswith(pre)`. -/
def pyStartsWith (s pre : String) : Bool :=
  pre.data.isPrefixOf s.data

/-- Split a character list at the first occurrence of `sep`, returning
the parts before and after it (`none` when `sep` does not occur). -/
def breakOnAux (sep : List Char) : List Char → Option (List Char × List Char)
  | [] => Option.none
  | c :: rest =>
      if sep.isPrefixOf (c :: rest) then some ([], (c :: rest).drop sep.length)
      else
        match breakOnAux sep rest with
        | some (pre, post) => some (c :: pre, post)
        | Option.none => Option.none

/-- Python `s.split(sep)[1]` for a string known to contain `sep`
(the source guards this access with `s.startswith(sep)`): the text
strictly between the first and the second occurrence of `sep`, or up
to the end when `sep` occurs only once. -/
def pySplitSecond (sep s : String) : String :=
  let after :=
    match breakOnAux sep.data s.data with
    | some (_, post) => post
    | Option.none => s.data
  match breakOnAux sep.data after with
  | some (pre, _) => ⟨pre⟩
  | Option.none => ⟨after⟩

/-- Python `s[n:]`. -/
def pyDrop (s : String) (n : Nat) : String :=
  ⟨s.data.drop n⟩

/-! ## Kernel-reducible rational arithmetic

The ambient field operations on `Rat` do not reduce inside the kernel,
so the executable definitions below use `Rat.divInt`-based wrappers.
Each wrapper is proved equal to the corresponding field operation, and
the proofs work with the field operations throughout. -/

/-- The exact rational `n / 100`; the two-decimal literals of the
Python source (`0.95`, `0.75`, … ) are written `centi 95`, `centi 75`, …. -/
def centi (n : Int) : Rat :=
  Rat.divInt n 100

/-- Kernel-reducible addition on `Rat`. -/
def addQ (a b : Rat) : Rat :=
  Rat.divInt (a.num * b.den + b.num * a.den) (a.den * b.den)

/-- Kernel-reducible subtraction on `Rat`. -/
def subQ (a b : Rat) : Rat :=
  Rat.divInt (a.num * b.den - b.num * a.den) (a.den * b.den)

/-- Kernel-reducible multiplication on `Rat`. -/
def mulQ (a b : Rat) : Rat :=
  Rat.divInt (a.num * b.num) (a.den * b.den)

/-! ## Content safety (src/backend/content_safety.py) -/

inductive HarmCategory where
  | none
  | suicide_self_harm
  | self_harm
  | discrimination
  | abuse
  | violence
  | substance_abuse
  | general_harmful
deriving DecidableEq, Repr

/-- The `.value` string of each enum member. -/
def HarmCategory.value : HarmCategory → String
  | .none => "none"
  | .suicide_self_harm => "suicide_self_harm"
  | .self_harm => "self_harm"
  | .discrimination => "discrimination"
  | .abuse => "abuse"
  | .violence => "violence"
  | .substance_abuse => "substance_abuse"
  | .general_harmful => "general_harmful"

structure ContentSafetyResult where
  is_harmful : Bool
  category : HarmCategory
  confidence : Rat
  requires_crisis_resources : Bool
  matched_patterns : List String
deriving DecidableEq, Repr

/-- The `HARM_PATTERNS` dict, in insertion order.  The pattern strings are
the raw regex sources from the Python module (apostrophes written `\x27`). -/
def HARM_PATTERNS : List (HarmCategory × List String) :=
  [ (HarmCategory.suicide_self_harm,
      [ "\\b(want to |wanna |going to |gonna )?(kill myself|end my life|end it all|commit suicide)\\b"
      , "\\b(suicidal|suicide)\\b"
      , "\\b(don\x27?t want to live|don\x27?t want to be alive|wish i was dead|better off dead)\\b"
      , "\\b(take my (own )?life|taking my (own )?life)\\b"
      , "\\b(no reason to live|nothing to live for)\\b" ])
  , (HarmCategory.self_harm,
      [ "\\b(cut myself|cutting myself|hurt myself|hurting myself)\\b"
      , "\\b(self[- ]?harm|self[- ]?injury)\\b"
      , "\\b(burn myself|burning myself|starve myself|starving myself)\\b" ])
  , (HarmCategory.discrimination,
      [ "\\b(hate|kill|eliminate|destroy) (all )?(blacks?|whites?|jews?|muslims?|christians?|hindus?|gays?|lesbians?|trans)\\b"
      , "\\b(racial slurs detected by context)\\b"
      , "\\b(those people deserve|they all deserve) (to die|death|suffering)\\b" ])
  , (HarmCategory.abuse,
      [ "\\b(being abused|someone (is )?abusing me|hit me|hits me|beats me)\\b"
      , "\\b(domestic (violence|abuse)|physical abuse|emotional abuse|sexual abuse)\\b"
      , "\\b(my (partner|spouse|husband|wife|boyfriend|girlfriend) (hits|beats|hurts) me)\\b"
      , "\\b(i(\x27m| am) (being|getting) abused)\\b" ])
  , (HarmCategory.violence,
      [ "\\b(want to |wanna |going to |gonna )?(kill|murder|hurt|attack|shoot|stab) (someone|people|them|him|her|everybody)\\b"
      , "\\b(bring a (gun|weapon|knife) to)\\b"
      , "\\b(planning (to|a) (attack|shooting|violence))\\b" ])
  , (HarmCategory.substance_abuse,
      [ "\\b(addicted to|addiction to) (drugs?|alcohol|heroin|cocaine|meth|pills?|opioids?)\\b"
      , "\\b(can\x27?t stop (using|drinking|taking))\\b"
      , "\\b(overdose|od\x27?d|od\x27?ing)\\b" ])
  ]

/-- `CRISIS_CATEGORIES`: categories that require crisis resources. -/
def CRISIS_CATEGORIES : List HarmCategory :=
  [ HarmCategory.suicide_self_harm
  , HarmCategory.self_harm
  , HarmCategory.abuse
  , HarmCategory.violence ]

/-- The `category_priority` dict inside `check_content` (with its `.get`
default of `0.5` for a category outside the dict). -/
def categoryPriority : HarmCategory → Rat
  | .suicide_self_harm => centi 100
  | .self_harm => centi 95
  | .violence => centi 90
  | .abuse => centi 85
  | .discrimination => centi 80
  | .substance_abuse => centi 75
  | .general_harmful => centi 60
  | .none => centi 50

/-- Accumulator of the scan loop in `check_content`: the growing
`matched_patterns` list and the running `detected_category` /
`highest_confidence` pair. -/
structure ScanState where
  matched_patterns : List String
  detected_category : HarmCategory
  highest_confidence : Rat
deriving DecidableEq, Repr

/-- One iteration of the inner `for pattern in patterns` loop. -/
def scanPattern (search : String → String → Option Bool) (textLower : String)
    (category : HarmCategory) (st : ScanState) (pattern : String) : ScanState :=
  match search pattern textLower with
  | some true =>
      if st.highest_confidence < categoryPriority category then
        ⟨st.matched_patterns ++ [pattern], category, categoryPriority category⟩
      else
        ⟨st.matched_patterns ++ [pattern], st.detected_category, st.highest_confidence⟩
  | _ => st

/-- One iteration of the outer `for category, patterns in HARM_PATTERNS.items()` loop. -/
def scanCategory (search : String → String → Option Bool) (textLower : String)
    (st : ScanState) (cp : HarmCategory × List String) : ScanState :=
  cp.2.foldl (scanPattern search textLower cp.1) st

/-- `ContentSafetyChecker.check_content`, parameterised by the regex
engine `search` (pattern, lower-cased text ↦ `some` match flag, or `none`
for a pattern raising `re.error`, which the source skips). -/
def checkContent (search : String → String → Option Bool) (text : String) :
    ContentSafetyResult :=
  if pyBlank text then
    ⟨false, HarmCategory.none, 1, false, []⟩
  else
    let textLower := text.toLower
    let st := HARM_PATTERNS.foldl (scanCategory search textLower) ⟨[], HarmCategory.none, 0⟩
    let harmful := st.detected_category ≠ HarmCategory.none
    ⟨harmful, st.detected_category,
     if harmful then st.highest_confidence else 1,
     decide (st.detected_category ∈ CRISIS_CATEGORIES),
     st.matched_patterns⟩

/-- The pattern list of a category in `HARM_PATTERNS` (empty for keys
outside the dict). -/
def patternsFor (c : HarmCategory) : List String :=
  ((HARM_PATTERNS.find? (fun cp => cp.1 == c)).map (fun cp => cp.2)).getD []

/-- Whether any rule of the `(category, patterns)` entry matches the
lower-cased text under `search`. -/
def categoryMatched (search : String → String → Option Bool) (textLower : String)
    (cp : HarmCategory × List String) : Bool :=
  cp.2.any (fun p => search p textLower == some true)

/-- Whether at least one rule of category `c` matches `text` (the same
lower-casing as `check_content` applied first). -/
def matchesCategory (search : String → String → Option Bool) (text : String)
    (c : HarmCategory) : Bool :=
  categoryMatched search text.toLower (c, patternsFor c)

/-- The initial accumulator of the scan loop in `check_content`. -/
def scanInit : ScanState :=
  ⟨[], HarmCategory.none, 0⟩

/-! ## Crisis-resource catalog (src/backend/content_safety.py) -/

/-- One helpline entry of `crisis_resources.json`; `description` is read
with `.get('description', '')`, so a missing description is modelled as
the empty string. -/
structure Helpline where
  name : String
  phone : String
  description : String
deriving DecidableEq, Repr

/-- One `crisis_resources.<bucket>` entry. -/
structure CrisisResources where
  helplines : List Helpline
  websites : List String
  emails : List String
deriving DecidableEq, Repr

/-- The loaded `_resources_cache` (association lists model the JSON
objects; keys are unique in the shipped configuration). -/
structure ResourcesCache where
  crisis_resources : List (String × CrisisResources)
  supportive_messages : List (String × String)
deriving DecidableEq, Repr

/-- Python `dict.get(key)` on an association list. -/
def lookupStr {α : Type} (kvs : List (String × α)) (k : String) : Option α :=
  (kvs.find? (fun kv => kv.1 == k)).map (fun kv => kv.2)

/-- `ContentSafetyChecker._get_default_resources`: the built-in fallback
table used when the JSON file is missing or malformed. -/
def defaultResources : ResourcesCache :=
  ⟨ [ ("suicide_self_harm", ⟨[⟨"Crisis Line", "988", "24/7 support"⟩], [], []⟩) ]
  , [ ("suicide_self_harm",
        "I hear you, and I care about your wellbeing. Please reach out to a crisis helpline for support.")
    , ("general_harmful",
        "I\x27m here for you. Let\x27s focus on finding positive ways forward together.") ] ⟩

/-- `ContentSafetyChecker.get_supportive_response`. -/
def get_supportive_response (cache : ResourcesCache) (category : HarmCategory) : String :=
  match lookupStr cache.supportive_messages category.value with
  | some m => m
  | Option.none =>
      match lookupStr cache.supportive_messages "general_harmful" with
      | some m => m
      | Option.none =>
          "I\x27m here for you. Whatever you\x27re going through, there are people who care."

/-- The `category_mapping` dict of `get_crisis_resources` (with its
`.get` default `"general_support"`). -/
def categoryResourceKey : HarmCategory → String
  | .suicide_self_harm => "suicide_self_harm"
  | .self_harm => "suicide_self_harm"
  | .abuse => "abuse"
  | .violence => "general_support"
  | .substance_abuse => "general_support"
  | _ => "general_support"

/-- `ContentSafetyChecker.get_crisis_resources`. -/
def get_crisis_resources (cache : ResourcesCache) (category : HarmCategory) :
    CrisisResources :=
  (lookupStr cache.crisis_resources (categoryResourceKey category)).getD ⟨[], [], []⟩

/-- `ContentSafetyChecker.format_response_with_resources` (also exposed as
the module-level `get_supportive_response` convenience function used by
the chat endpoint). -/
def format_response_with_resources (cache : ResourcesCache) (category : HarmCategory) :
    String :=
  let base_message := get_supportive_response cache category
  if category ∈ CRISIS_CATEGORIES then
    match (get_crisis_resources cache category).helplines with
    | [] => base_message
    | primary :: _ =>
        base_message ++ "\n\nYou can reach out to " ++ primary.name ++ " at " ++
          primary.phone ++ ". " ++ primary.description
  else base_message

/-! ## Data models (src/backend/models.py)

`created_at` (an opaque server-side timestamp) is omitted from the
`Persona` model; no logic under verification reads it. -/

structure Persona where
  id : String
  name : String
  base_prompt : String
  voice_id : String
  base_stability : Rat
  base_similarity_boost : Rat
  base_style : Rat
  is_default : Bool
deriving DecidableEq, Repr

structure IntentToneAnalysis where
  transcript : String
  intent : String
  tone : String
  confidence : Rat
deriving DecidableEq, Repr

def VALID_INTENTS : List String :=
  ["venting", "seeking_advice", "casual_chat", "question"]

def VALID_TONES : List String :=
  ["happy", "sad", "frustrated", "neutral", "anxious", "excited"]

/-! ## Tone/intent classifier (src/backend/services.py, analyze_intent_and_tone)

The Vertex AI call is modelled by a `GenOutcome` value (the call either
raised, or returned a text), and `json.loads` by an explicit decoder
parameter returning a `JValue` or a decode error.  The Python `except`
structure is mirrored exactly: only `json.JSONDecodeError` is absorbed;
every other exception inside the `try` block (an `AttributeError` from
`.get` on a non-dict, a `ValueError`/`TypeError` from `float(...)`)
reaches the final generic handler and becomes `AnalysisError`. -/

/-- A JSON value (the possible results of `json.loads`). -/
inductive JValue where
  | null
  | boolean (b : Bool)
  | num (q : Rat)
  | str (s : String)
  | arr (xs : List JValue)
  | obj (kvs : List (String × JValue))
deriving Repr

/-- Outcome of an external generative-model call. -/
inductive GenOutcome where
  | raised (msg : String)
  | returned (text : String)
deriving DecidableEq, Repr

/-- Python `dict.get` on a JSON object association list. -/
def jGet (kvs : List (String × JValue)) (k : String) : Option JValue :=
  (kvs.find? (fun kv => kv.1 == k)).map (fun kv => kv.2)

/-- Digits of a decimal numeral, or `none` when the character list is
empty or contains a non-digit. -/
def digitsToNat (cs : List Char) : Option Nat :=
  if cs ≠ [] ∧ cs.all Char.isDigit then
    some (cs.foldl (fun n c => 10 * n + (c.toNat - 48)) 0)
  else Option.none

/-- Python `float(s)` on a string, modelled for plain decimal numerals:
optional surrounding whitespace, optional sign, digits with an optional
fractional part (exponents, `inf`, `nan` and digit underscores are not
modelled).  `none` models `ValueError`. -/
def parseFloatString (s : String) : Option Rat :=
  let t := (pyStrip s).data
  let (sign, body) :=
    if t.take 1 = ['-'] then ((-1 : Int), t.drop 1)
    else if t.take 1 = ['+'] then ((1 : Int), t.drop 1)
    else ((1 : Int), t)
  match breakOnAux ['.'] body with
  | Option.none =>
      (digitsToNat body).map (fun n => Rat.divInt (sign * n) 1)
  | some (intPart, fracPart) =>
      if intPart = [] ∧ fracPart = [] then Option.none
      else
        let ip := if intPart = [] then some 0 else digitsToNat intPart
        let fp := if fracPart = [] then some 0 else digitsToNat fracPart
        match ip, fp with
        | some n, some f =>
            some (Rat.divInt (sign * ((n : Int) * 10 ^ fracPart.length + f))
              (10 ^ fracPart.length))
        | _, _ => Option.none

/-- Python `float(x)` on a JSON value: numbers pass through, booleans
become 0/1, strings are parsed (`ValueError` on failure), and `null`,
arrays and objects raise `TypeError`.  `Except.error ()` models the
raised exception. -/
def pyFloat : JValue → Except Unit Rat
  | .num q => .ok q
  | .boolean b => .ok (if b then 1 else 0)
  | .str s =>
      match parseFloatString s with
      | some q => .ok q
      | Option.none => .error ()
  | _ => .error ()

/-- The markdown-fence stripping applied to the model response before
`json.loads`: `strip`, then `split("```")[1]` when the text starts with
a fence, then dropping a leading `"json"` tag, then `strip` again. -/
def extractPayload (rtext : String) : String :=
  let response_text := pyStrip rtext
  let response_text :=
    if pyStartsWith response_text "```" then
      let t := pySplitSecond "```" response_text
      if pyStartsWith t "json" then pyDrop t 4 else t
    else response_text
  pyStrip response_text

/-- The intent validation of `analyze_intent_and_tone`: the value read
with `result.get("intent", "casual_chat")` is kept only when it is a
string inside `VALID_INTENTS` (Python `x not in VALID_INTENTS` is true
for every non-string value). -/
def coerceIntent (v : JValue) : String :=
  match v with
  | JValue.str s => if s ∈ VALID_INTENTS then s else "casual_chat"
  | _ => "casual_chat"

/-- The tone validation of `analyze_intent_and_tone`. -/
def coerceTone (v : JValue) : String :=
  match v with
  | JValue.str s => if s ∈ VALID_TONES then s else "neutral"
  | _ => "neutral"

/-- The post-JSON-decode failure condition of `analyze_intent_and_tone`:
the decoded value is not an object, or its `confidence` entry is not
float-convertible.  In Python these raise `AttributeError` /
`ValueError` / `TypeError`, which the generic `except` turns into
`AnalysisError`. -/
def badParsedResponse (jsonLoads : String → Except Unit JValue) (rtext : String) : Prop :=
  match jsonLoads (extractPayload rtext) with
  | .error _ => False
  | .ok (JValue.obj kvs) =>
      pyFloat ((jGet kvs "confidence").getD (JValue.num (centi 70))) = .error ()
  | .ok _ => True

/-- `analyze_intent_and_tone`, parameterised by whether `analysis_model`
was initialised, the JSON decoder, and the outcome of the external call.
`Except.error` models a raised `AnalysisError`. -/
def analyze_intent_and_tone (modelAvailable : Bool)
    (jsonLoads : String → Except Unit JValue) (outcome : GenOutcome)
    (transcript : String) : Except String IntentToneAnalysis :=
  if modelAvailable = false then
    .ok ⟨transcript, "casual_chat", "neutral", centi 50⟩
  else if pyBlank transcript then
    .ok ⟨transcript, "casual_chat", "neutral", 0⟩
  else
    match outcome with
    | .raised msg => .error ("Failed to analyze intent/tone: " ++ msg)
    | .returned rtext =>
        match jsonLoads (extractPayload rtext) with
        | .error _ =>
            .ok ⟨transcript, "casual_chat", "neutral", centi 30⟩
        | .ok (JValue.obj kvs) =>
            let intent := coerceIntent ((jGet kvs "intent").getD (JValue.str "casual_chat"))
            let tone := coerceTone ((jGet kvs "tone").getD (JValue.str "neutral"))
            match pyFloat ((jGet kvs "confidence").getD (JValue.num (centi 70))) with
            | .error _ => .error "Failed to analyze intent/tone: invalid confidence value"
            | .ok confidence =>
                .ok ⟨transcript, intent, tone, min (max confidence 0) 1⟩
        | .ok _ => .error "Failed to analyze intent/tone: response is not a JSON object"

/-! ## Voice parameter modulator (src/backend/services.py, compute_voice_settings) -/

/-- The returned voice-settings dict. -/
structure VoiceSettings where
  stability : Rat
  similarity_boost : Rat
  style : Rat
deriving DecidableEq, Repr

/-- The `tone_adjustments` dict: `(Δstability, Δstyle)` per tone, with
the `.get` default `(0, 0)` for an unknown tone. -/
def toneAdjustments (tone : String) : Rat × Rat :=
  if tone = "happy" then (centi (-10), centi 10)
  else if tone = "sad" then (centi 15, centi (-5))
  else if tone = "frustrated" then (centi 10, 0)
  else if tone = "neutral" then (0, 0)
  else if tone = "anxious" then (centi 15, centi (-10))
  else if tone = "excited" then (centi (-15), centi 15)
  else (0, 0)

/-- Round-half-to-even to an integer (the rounding mode of Python
`round`; the binary floating-point representation is idealised as exact
rational arithmetic). -/
def roundHalfEven (q : Rat) : Int :=
  if subQ q (Rat.divInt (Rat.floor q) 1) < Rat.divInt 1 2 then Rat.floor q
  else if Rat.divInt 1 2 < subQ q (Rat.divInt (Rat.floor q) 1) then Rat.floor q + 1
  else if Rat.floor q % 2 = 0 then Rat.floor q else Rat.floor q + 1

/-- Python `round(q, 2)` (idealised to exact decimal rounding). -/
def round2 (q : Rat) : Rat :=
  Rat.divInt (roundHalfEven (mulQ q (Rat.divInt 100 1))) 100

/-- The clamp `max(0.1, min(0.9, ·))` applied to stability after the
tone delta. -/
def clampStability (x : Rat) : Rat :=
  max (centi 10) (min (centi 90) x)

/-- The clamp `max(0.0, min(0.5, ·))` applied to style after the tone
delta. -/
def clampStyle (x : Rat) : Rat :=
  max 0 (min (centi 50) x)

/-- The intent-based minor adjustments of `compute_voice_settings`. -/
def intentAdjust (intent : String) (stability : Rat) : Rat :=
  if intent = "venting" then min (addQ stability (centi 5)) (centi 90)
  else if intent = "question" then max stability (centi 50)
  else stability

/-- `compute_voice_settings`. -/
def compute_voice_settings (persona : Persona) (analysis : IntentToneAnalysis) :
    VoiceSettings :=
  let adjustments := toneAdjustments analysis.tone
  let stability := clampStability (addQ persona.base_stability adjustments.1)
  let style := clampStyle (addQ persona.base_style adjustments.2)
  let stability := intentAdjust analysis.intent stability
  ⟨round2 stability, round2 persona.base_similarity_boost, round2 style⟩

/-! ## Phrase selector (src/backend/custom_responses.py) -/

/-- The nine phrase categories of `CustomResponseSelector.phrases`. -/
structure PhraseStore where
  active_listening : List String
  neutral_acknowledgments : List String
  validating_responses : List String
  positive_acknowledgments : List String
  excited_celebratory : List String
  thoughtful_pauses : List String
  encouraging_continuation : List String
  reflective_acknowledgments : List String
  empathetic_sounds : List String
deriving DecidableEq, Repr

/-- Python `self.phrases.get(category, [])`. -/
def getCategoryPhrases (ps : PhraseStore) (category : String) : List String :=
  if category = "active_listening" then ps.active_listening
  else if category = "neutral_acknowledgments" then ps.neutral_acknowledgments
  else if category = "validating_responses" then ps.validating_responses
  else if category = "positive_acknowledgments" then ps.positive_acknowledgments
  else if category = "excited_celebratory" then ps.excited_celebratory
  else if category = "thoughtful_pauses" then ps.thoughtful_pauses
  else if category = "encouraging_continuation" then ps.encouraging_continuation
  else if category = "reflective_acknowledgments" then ps.reflective_acknowledgments
  else if category = "empathetic_sounds" then ps.empathetic_sounds
  else []

/-- The tone/intent → categories dispatch chain of `select_phrase`. -/
def categoriesToUse (tone intent : String) : List String :=
  if tone = "frustrated" ∨ intent = "venting" then
    ["active_listening", "validating_responses", "thoughtful_pauses"]
  else if tone = "happy" then
    ["positive_acknowledgments", "excited_celebratory"]
  else if tone = "sad" then
    ["active_listening", "validating_responses", "thoughtful_pauses"]
  else if tone = "anxious" then
    ["active_listening", "validating_responses", "thoughtful_pauses"]
  else if tone = "excited" then
    ["positive_acknowledgments", "excited_celebratory"]
  else if intent = "question" then
    ["neutral_acknowledgments", "reflective_acknowledgments"]
  else if intent = "casual_chat" then
    ["active_listening", "neutral_acknowledgments", "encouraging_continuation"]
  else if intent = "seeking_advice" then
    ["reflective_acknowledgments", "neutral_acknowledgments", "validating_responses"]
  else
    ["active_listening", "neutral_acknowledgments"]

/-- The `available_phrases` union built by the `extend` loop. -/
def phraseUnion (ps : PhraseStore) (tone intent : String) : List String :=
  (categoriesToUse tone intent).foldl (fun acc c => acc ++ getCategoryPhrases ps c) []

/-- Python `random.choice(l)` for non-empty `l`, driven by an explicit
random draw `k`. -/
def pyChoice (k : Nat) (l : List String) : String :=
  l.getD (k % l.length) ""

/-- `CustomResponseSelector.select_phrase`; `k` models the random draw. -/
def select_phrase (ps : PhraseStore) (k : Nat) (tone intent : String) : String :=
  let available_phrases := phraseUnion ps tone intent
  if available_phrases ≠ [] then pyChoice k available_phrases
  else if ps.active_listening ≠ [] then pyChoice k ps.active_listening
  else "I hear you"

/-- `available_phrases` of `generate_response`: every phrase of the
selector, in the dict's insertion order. -/
def allPhrases (ps : PhraseStore) : List String :=
  ps.active_listening ++ ps.neutral_acknowledgments ++ ps.validating_responses ++
    ps.positive_acknowledgments ++ ps.excited_celebratory ++ ps.thoughtful_pauses ++
    ps.encouraging_continuation ++ ps.reflective_acknowledgments ++ ps.empathetic_sounds

/-- `generate_response` (src/backend/services.py): the LLM picks a
phrase which is validated against the catalog; on a mismatch, on a
raised call, or when the model is not initialised (the inner `LLMError`
is swallowed by the function's own generic `except`), the deterministic
`select_phrase` fallback runs.  The `weather_data`/`time_data`/greeting
parameters of the source are unused by its body and omitted. -/
def generate_response (ps : PhraseStore) (k : Nat) (modelAvailable : Bool)
    (outcome : GenOutcome) (analysis : IntentToneAnalysis) : String :=
  if modelAvailable = false then
    select_phrase ps k analysis.tone analysis.intent
  else
    match outcome with
    | .raised _ => select_phrase ps k analysis.tone analysis.intent
    | .returned t =>
        let selected_phrase := pyStrip t
        if selected_phrase ∈ allPhrases ps then selected_phrase
        else select_phrase ps k analysis.tone analysis.intent

/-! ## Persona store (src/backend/persona_store.py)

The `_personas` dict is modelled as a list of personas in insertion
order (dict keys are the persona ids). -/

/-- The default cheerful persona created by `_initialize_default_persona`
(`base_prompt` elided to its first line; no verified logic reads it). -/
def cheerfulPersona : Persona :=
  ⟨"default-cheerful", "Cheerful",
    "You are a cheerful and uplifting AI companion.",
    "21m00Tcm4TlvDq8ikWAM", centi 40, centi 75, centi 20, true⟩

/-- Python `self._personas[p.id] = p`: replace the entry in place if the
id is present, else append. -/
def storeInsert (s : List Persona) (p : Persona) : List Persona :=
  if s.any (fun q => q.id == p.id) then
    s.map (fun q => if q.id == p.id then p else q)
  else s ++ [p]

/-- `PersonaStore._initialize_default_persona`. -/
def initializeDefaultPersona (s : List Persona) : List Persona :=
  storeInsert s cheerfulPersona

/-- The store contents right after `PersonaStore.__init__`. -/
def initStore : List Persona :=
  initializeDefaultPersona []

/-- `PersonaStore.create` (the fresh uuid is an explicit parameter; the
Python `voice_id or "21m00Tcm4TlvDq8ikWAM"` treats an empty string as
falsy). -/
def createPersona (s : List Persona) (newId : String) (name base_prompt : String)
    (voice_id : Option String) (base_stability base_similarity_boost base_style : Rat) :
    List Persona :=
  storeInsert s ⟨newId, name, base_prompt,
    (match voice_id with
     | some v => if v = "" then "21m00Tcm4TlvDq8ikWAM" else v
     | Option.none => "21m00Tcm4TlvDq8ikWAM"),
    base_stability, base_similarity_boost, base_style, false⟩

/-- The updatable fields of `PersonaStore.update`; `is_default` and `id`
are popped from the kwargs by the source and therefore absent here. -/
structure PersonaUpdate where
  name : Option String
  base_prompt : Option String
  voice_id : Option String
  base_stability : Option Rat
  base_similarity_boost : Option Rat
  base_style : Option Rat
deriving DecidableEq, Repr

/-- The `setattr` loop of `PersonaStore.update` on one persona. -/
def applyUpdate (p : Persona) (u : PersonaUpdate) : Persona :=
  { p with
    name := u.name.getD p.name
    base_prompt := u.base_prompt.getD p.base_prompt
    voice_id := u.voice_id.getD p.voice_id
    base_stability := u.base_stability.getD p.base_stability
    base_similarity_boost := u.base_similarity_boost.getD p.base_similarity_boost
    base_style := u.base_style.getD p.base_style }

/-- `PersonaStore.update` (state effect; a missing id leaves the store
unchanged, the source then returns `None`). -/
def updatePersona (s : List Persona) (pid : String) (u : PersonaUpdate) :
    List Persona :=
  s.map (fun q => if q.id == pid then applyUpdate q u else q)

/-- `PersonaStore.delete` (state effect): remove the persona; if the
store becomes empty, re-create the default. -/
def deletePersona (s : List Persona) (pid : String) : List Persona :=
  if s.any (fun q => q.id == pid) then
    let remaining := s.filter (fun q => q.id ≠ pid)
    if remaining = [] then initializeDefaultPersona remaining else remaining
  else s

/-- `PersonaStore.get_default`: the returned persona and the store state
after the call (which re-seeds the default when none is marked). -/
def getDefaultPersona (s : List Persona) : Persona × List Persona :=
  match s.find? (fun p => p.is_default) with
  | some p => (p, s)
  | Option.none =>
      let s2 := initializeDefaultPersona s
      ((s2.find? (fun p => p.id == "default-cheerful")).getD cheerfulPersona, s2)

/-- Number of personas marked default in the store. -/
def countDefaults (s : List Persona) : Nat :=
  (s.filter (fun p => p.is_default)).length

/-- Deleting every persona currently in the store, in insertion order. -/
def deleteEvery (s : List Persona) : List Persona :=
  (s.map Persona.id).foldl deletePersona s

/-! ## Chat-turn orchestrator (src/backend/main.py, chat_endpoint)

The turn is modelled from the transcription result onwards (audio bytes
and the transcription provider are outside the verified core; the
synthesiser is a parameter returning the base64 audio payload).  The
weather/time lookups of the safe path feed only the unused parameters
of `generate_response` and are omitted.  `Except.error` models a
service exception propagating to the HTTP 500 handler. -/

/-- The `ChatResponse` payload. -/
structure ChatResponse where
  audio_base64 : String
  transcript : String
  intent : String
  tone : String
  response_text : String
  confidence : Rat
  is_safety_response : Bool
  safety_category : Option String
deriving DecidableEq, Repr

/-- The fixed safety-path voice settings of the source
(`stability 0.7, similarity_boost 0.75, style 0.1`). -/
def safetyVoiceSettings : VoiceSettings :=
  ⟨centi 70, centi 75, centi 10⟩

/-- `chat_endpoint` from the transcription result onwards.  `synth`
models `synthesize_speech` composed with base64 encoding; `search`,
`jsonLoads`, `analysisOutcome`, `genOutcome` and `k` are the external
effects consumed by the stages. -/
def chatTurn (search : String → String → Option Bool) (cache : ResourcesCache)
    (ps : PhraseStore) (synth : String → String → VoiceSettings → String)
    (modelAvailable : Bool) (jsonLoads : String → Except Unit JValue)
    (analysisOutcome genOutcome : GenOutcome) (k : Nat)
    (persona : Persona) (transcript : String) : Except String ChatResponse :=
  if pyBlank transcript then
    .ok ⟨"", "", "casual_chat", "neutral",
      "I didn\x27t quite catch that. Could you say that again?", 0, false, Option.none⟩
  else
    let safety_result := checkContent search transcript
    if safety_result.is_harmful then
      let supportive_text := format_response_with_resources cache safety_result.category
      .ok ⟨synth supportive_text persona.voice_id safetyVoiceSettings,
        transcript, "seeking_advice",
        (if safety_result.category = HarmCategory.suicide_self_harm ∨
            safety_result.category = HarmCategory.self_harm
         then "anxious" else "frustrated"),
        supportive_text, safety_result.confidence, true,
        some safety_result.category.value⟩
    else
      match analyze_intent_and_tone modelAvailable jsonLoads analysisOutcome transcript with
      | .error e => .error e
      | .ok analysis =>
          let ai_text := generate_response ps k modelAvailable genOutcome analysis
          let voice_settings := compute_voice_settings persona analysis
          .ok ⟨synth ai_text persona.voice_id voice_settings,
            analysis.transcript, analysis.intent, analysis.tone,
            ai_text, analysis.confidence, false, Option.none⟩


/-! ## Concrete instances used by witnesses -/

/-- A regex engine for which every pattern matches. -/
def searchAll : String → String → Option Bool :=
  fun _ _ => some true

/-- A regex engine for which exactly the self_harm and substance_abuse
rules match. -/
def searchSelfSubstance : String → String → Option Bool :=
  fun p _ =>
    some ((patternsFor HarmCategory.self_harm).contains p ||
      (patternsFor HarmCategory.substance_abuse).contains p)

/-- A JSON decoder that decodes `"[1]"` to the array `[1]` (as Python
`json.loads` does) and reports a decode error on any other input. -/
def jsonLoadsArr : String → Except Unit JValue :=
  fun s => if s = "[1]" then .ok (JValue.arr [JValue.num 1]) else .error ()

/-- A JSON decoder that always reports a decode error. -/
def jsonLoadsFail : String → Except Unit JValue :=
  fun _ => .error ()

/-- A phrase store with every category empty (the state after a failed
`customResponses.txt` load). -/
def phraseStoreEmpty : PhraseStore :=
  ⟨[], [], [], [], [], [], [], [], []⟩

/-- A concrete synthesiser stub recording its text and voice id. -/
def synthTag : String → String → VoiceSettings → String :=
  fun text vid _ => text ++ "|" ++ vid

/-! ## Bridge lemmas -/

theorem centi_eq (n : Int) : centi n = (n : Rat) / 100 := by
  rw [centi, Rat.divInt_eq_div]
  norm_num

theorem addQ_eq (a b : Rat) : addQ a b = a + b := by
  have ha : ((a.den : Rat)) ≠ 0 := by
    exact_mod_cast a.den_nz
  have hb : ((b.den : Rat)) ≠ 0 := by
    exact_mod_cast b.den_nz
  rw [addQ, Rat.divInt_eq_div]
  conv_rhs => rw [← Rat.num_div_den a, ← Rat.num_div_den b]
  rw [div_add_div _ _ ha hb]
  push_cast
  ring_nf

theorem subQ_eq (a b : Rat) : subQ a b = a - b := by
  have ha : ((a.den : Rat)) ≠ 0 := by
    exact_mod_cast a.den_nz
  have hb : ((b.den : Rat)) ≠ 0 := by
    exact_mod_cast b.den_nz
  rw [subQ, Rat.divInt_eq_div]
  conv_rhs => rw [← Rat.num_div_den a, ← Rat.num_div_den b]
  rw [div_sub_div _ _ ha hb]
  push_cast
  ring_nf

theorem mulQ_eq (a b : Rat) : mulQ a b = a * b := by
  rw [mulQ, Rat.divInt_eq_div]
  conv_rhs => rw [← Rat.num_div_den a, ← Rat.num_div_den b]
  rw [div_mul_div_comm]
  push_cast
  ring_nf


example :
    checkContent (fun p _ => some (p ∈ patternsFor HarmCategory.self_harm)) "i cut myself" =
      ⟨true, HarmCategory.self_harm, centi 95, true,
        patternsFor HarmCategory.self_harm⟩ := by rfl

example : checkContent (fun _ _ => some true) "   " =
    ⟨false, HarmCategory.none, 1, false, []⟩ := by rfl

/-! ## Content-safety scan lemmas -/

theorem checkContent_of_blank (search : String → String → Option Bool) (text : String)
    (h : pyBlank text = true) :
    checkContent search text = ⟨false, HarmCategory.none, 1, false, []⟩ := by
  simp [checkContent, h]

theorem foldl_scanPattern_pair (search : String → String → Option Bool) (tl : String)
    (c : HarmCategory) (pats : List String) : ∀ st : ScanState,
    ((pats.foldl (scanPattern search tl c) st).detected_category,
      (pats.foldl (scanPattern search tl c) st).highest_confidence) =
      if (pats.any fun p => search p tl == some true) = true ∧
          st.highest_confidence < categoryPriority c then
        (c, categoryPriority c)
      else (st.detected_category, st.highest_confidence) := by
  induction pats with
  | nil =>
      intro st
      simp
  | cons p rest ih =>
      intro st
      by_cases hm : search p tl = some true
      · have hstep : scanPattern search tl c st p =
            if st.highest_confidence < categoryPriority c then
              ⟨st.matched_patterns ++ [p], c, categoryPriority c⟩
            else ⟨st.matched_patterns ++ [p], st.detected_category, st.highest_confidence⟩ := by
          simp [scanPattern, hm]
        by_cases hlt : st.highest_confidence < categoryPriority c
        · rw [List.foldl_cons, hstep, if_pos hlt, ih]
          simp [hm, hlt, lt_irrefl]
        · rw [List.foldl_cons, hstep, if_neg hlt, ih]
          simp [hm, hlt]
      · have hstep : scanPattern search tl c st p = st := by
          unfold scanPattern
          cases hsp : search p tl with
          | none => rfl
          | some b =>
              cases b with
              | false => rfl
              | true => exact absurd hsp hm
        rw [List.foldl_cons, hstep, ih]
        simp [hm]

theorem scanCategory_pair (search : String → String → Option Bool) (tl : String)
    (st : ScanState) (cp : HarmCategory × List String) :
    ((scanCategory search tl st cp).detected_category,
      (scanCategory search tl st cp).highest_confidence) =
      if categoryMatched search tl cp = true ∧
          st.highest_confidence < categoryPriority cp.1 then
        (cp.1, categoryPriority cp.1)
      else (st.detected_category, st.highest_confidence) :=
  foldl_scanPattern_pair search tl cp.1 cp.2 st

theorem scan_invariant (search : String → String → Option Bool) (tl : String)
    (L : List (HarmCategory × List String))
    (hpos : ∀ cp ∈ L, 0 < categoryPriority cp.1) :
    (((L.foldl (scanCategory search tl) scanInit).detected_category = HarmCategory.none ∧
      (L.foldl (scanCategory search tl) scanInit).highest_confidence = 0 ∧
      ∀ cp ∈ L, categoryMatched search tl cp = false) ∨
     ((∃ cp ∈ L, categoryMatched search tl cp = true ∧
        (L.foldl (scanCategory search tl) scanInit).detected_category = cp.1 ∧
        (L.foldl (scanCategory search tl) scanInit).highest_confidence =
          categoryPriority cp.1) ∧
      (∀ cp ∈ L, categoryMatched search tl cp = true →
        categoryPriority cp.1 ≤
          (L.foldl (scanCategory search tl) scanInit).highest_confidence))) := by
  induction L using List.reverseRecOn with
  | nil =>
      left
      refine ⟨rfl, rfl, ?_⟩
      intro cp hcp
      simp at hcp
  | append_singleton L cp ih =>
      have hposL : ∀ q ∈ L, 0 < categoryPriority q.1 := by
        intro q hq
        exact hpos q (List.mem_append_left _ hq)
      have hposcp : 0 < categoryPriority cp.1 := by
        exact hpos cp (List.mem_append_right _ (by simp))
      have hfold : (L ++ [cp]).foldl (scanCategory search tl) scanInit =
          scanCategory search tl (L.foldl (scanCategory search tl) scanInit) cp := by
        simp [List.foldl_append]
      have hpair := scanCategory_pair search tl (L.foldl (scanCategory search tl) scanInit) cp
      rcases ih hposL with ⟨hdc, hhc, hnone⟩ | ⟨⟨cp0, hmem0, hm0, hdc0, hhc0⟩, hdom⟩
      · by_cases hm : categoryMatched search tl cp = true
        · right
          have hcond : categoryMatched search tl cp = true ∧
              (L.foldl (scanCategory search tl) scanInit).highest_confidence <
                categoryPriority cp.1 := ⟨hm, by rw [hhc]; exact hposcp⟩
          rw [if_pos hcond, Prod.mk.injEq] at hpair
          obtain ⟨h1, h2⟩ := hpair
          constructor
          · exact ⟨cp, List.mem_append_right _ (by simp), hm,
              by rw [hfold]; exact h1, by rw [hfold]; exact h2⟩
          · intro q hq hmq
            rw [hfold, h2]
            rcases List.mem_append.mp hq with hqL | hqcp
            · exact absurd hmq (by simp [hnone q hqL])
            · have : q = cp := by simpa using hqcp
              subst this
              exact le_refl _
        · left
          have hcond : ¬(categoryMatched search tl cp = true ∧
              (L.foldl (scanCategory search tl) scanInit).highest_confidence <
                categoryPriority cp.1) := by
            intro hc
            exact hm hc.1
          rw [if_neg hcond, Prod.mk.injEq] at hpair
          obtain ⟨h1, h2⟩ := hpair
          refine ⟨by rw [hfold, h1, hdc], by rw [hfold, h2, hhc], ?_⟩
          intro q hq
          rcases List.mem_append.mp hq with hqL | hqcp
          · exact hnone q hqL
          · have : q = cp := by simpa using hqcp
            subst this
            simpa using hm
      · by_cases hm : categoryMatched search tl cp = true ∧
            (L.foldl (scanCategory search tl) scanInit).highest_confidence <
              categoryPriority cp.1
        · right
          rw [if_pos hm, Prod.mk.injEq] at hpair
          obtain ⟨h1, h2⟩ := hpair
          constructor
          · exact ⟨cp, List.mem_append_right _ (by simp), hm.1,
              by rw [hfold]; exact h1, by rw [hfold]; exact h2⟩
          · intro q hq hmq
            rw [hfold, h2]
            rcases List.mem_append.mp hq with hqL | hqcp
            · exact le_trans (hdom q hqL hmq) (le_of_lt hm.2)
            · have : q = cp := by simpa using hqcp
              subst this
              exact le_refl _
        · right
          rw [if_neg hm, Prod.mk.injEq] at hpair
          obtain ⟨h1, h2⟩ := hpair
          constructor
          · exact ⟨cp0, List.mem_append_left _ hmem0, hm0,
              by rw [hfold, h1]; exact hdc0, by rw [hfold, h2]; exact hhc0⟩
          · intro q hq hmq
            rw [hfold, h2]
            rcases List.mem_append.mp hq with hqL | hqcp
            · exact hdom q hqL hmq
            · have : q = cp := by simpa using hqcp
              subst this
              rcases not_and_or.mp hm with hnm | hnlt
              · exact absurd hmq hnm
              · exact not_lt.mp hnlt

theorem checkContent_of_not_blank (search : String → String → Option Bool) (text : String)
    (h : pyBlank text = false) :
    checkContent search text =
      ⟨decide ((HARM_PATTERNS.foldl (scanCategory search text.toLower)
          scanInit).detected_category ≠ HarmCategory.none),
        (HARM_PATTERNS.foldl (scanCategory search text.toLower) scanInit).detected_category,
        (if (HARM_PATTERNS.foldl (scanCategory search text.toLower)
              scanInit).detected_category ≠ HarmCategory.none then
          (HARM_PATTERNS.foldl (scanCategory search text.toLower) scanInit).highest_confidence
         else 1),
        decide ((HARM_PATTERNS.foldl (scanCategory search text.toLower)
          scanInit).detected_category ∈ CRISIS_CATEGORIES),
        (HARM_PATTERNS.foldl (scanCategory search text.toLower) scanInit).matched_patterns⟩ := by
  simp only [checkContent, h, Bool.false_eq_true, if_false, scanInit]

theorem harm_patterns_pos : ∀ cp ∈ HARM_PATTERNS, 0 < categoryPriority cp.1 := by
  decide

theorem harm_patterns_not_none : ∀ cp ∈ HARM_PATTERNS, cp.1 ≠ HarmCategory.none := by
  decide

theorem patternsFor_harm_patterns : ∀ cp ∈ HARM_PATTERNS, patternsFor cp.1 = cp.2 := by
  decide

theorem patternsFor_cases (c : HarmCategory) :
    patternsFor c = [] ∨ (c, patternsFor c) ∈ HARM_PATTERNS := by
  cases c <;> decide

/-- For non-blank text: the emitted category is itself matched, and its
priority dominates the priority of every matched category. -/
theorem checkContent_dominates (search : String → String → Option Bool) (text : String)
    (c : HarmCategory) (hb : pyBlank text = false)
    (hm : matchesCategory search text c = true) :
    matchesCategory search text (checkContent search text).category = true ∧
    categoryPriority c ≤ categoryPriority (checkContent search text).category := by
  have hcmem : (c, patternsFor c) ∈ HARM_PATTERNS := by
    rcases patternsFor_cases c with h | h
    · exfalso
      rw [matchesCategory, categoryMatched, h] at hm
      simp at hm
    · exact h
  have hcat : (checkContent search text).category =
      (HARM_PATTERNS.foldl (scanCategory search text.toLower) scanInit).detected_category := by
    rw [checkContent_of_not_blank search text hb]
  have hconf : (checkContent search text).confidence =
      (if (HARM_PATTERNS.foldl (scanCategory search text.toLower)
            scanInit).detected_category ≠ HarmCategory.none then
        (HARM_PATTERNS.foldl (scanCategory search text.toLower) scanInit).highest_confidence
       else 1) := by
    rw [checkContent_of_not_blank search text hb]
  rcases scan_invariant search text.toLower HARM_PATTERNS harm_patterns_pos with
    ⟨hdc, hhc, hnone⟩ | ⟨⟨cp0, hmem0, hm0, hdc0, hhc0⟩, hdom⟩
  · exfalso
    have := hnone (c, patternsFor c) hcmem
    rw [matchesCategory] at hm
    rw [this] at hm
    exact Bool.false_ne_true hm
  · have hc1 : (checkContent search text).category = cp0.1 := by rw [hcat, hdc0]
    constructor
    · rw [hc1, matchesCategory, patternsFor_harm_patterns cp0 hmem0]
      simpa using hm0
    · rw [hc1, ← hhc0]
      exact hdom (c, patternsFor c) hcmem hm

/-- C2: for every input text, the verdict of `check_content` satisfies
`is_harmful == (category != none)`, and `requires_crisis_resources` holds
iff the category is one of suicide_self_harm, self_harm, abuse, violence
(the `CRISIS_CATEGORIES` set). -/
theorem c2_verdict_invariant (search : String → String → Option Bool) (text : String) :
    ((checkContent search text).is_harmful = true ↔
      (checkContent search text).category ≠ HarmCategory.none) ∧
    ((checkContent search text).requires_crisis_resources = true ↔
      (checkContent search text).category ∈ CRISIS_CATEGORIES) := by
  cases hb : pyBlank text with
  | true =>
      rw [checkContent_of_blank search text hb]
      constructor
      · simp
      · simp [CRISIS_CATEGORIES]
  | false =>
      rw [checkContent_of_not_blank search text hb]
      constructor
      · simp
      · simp

/-- C9: for all empty or whitespace-only input text, `check_content`
returns `category = none`, `is_harmful = false`, `confidence = 1.0` and
an empty list of matched rules. -/
theorem c9_blank_input (search : String → String → Option Bool) (text : String)
    (h : pyBlank text = true) :
    checkContent search text = ⟨false, HarmCategory.none, 1, false, []⟩ :=
  checkContent_of_blank search text h

theorem c9_blank_input_witness :
    checkContent (fun _ _ => some true) " \t " =
      ⟨false, HarmCategory.none, 1, false, []⟩ :=
  c9_blank_input (fun _ _ => some true) " \t " (by decide)

/-- C10 (implicit): the confidence of a `check_content` verdict equals
the fixed priority weight of the emitted category when the verdict is
harmful, and equals 1.0 otherwise; it never depends on how many rules
matched. -/
theorem c10_confidence_is_priority (search : String → String → Option Bool)
    (text : String) :
    (checkContent search text).confidence =
      if (checkContent search text).is_harmful = true then
        categoryPriority (checkContent search text).category
      else 1 := by
  cases hb : pyBlank text with
  | true =>
      rw [checkContent_of_blank search text hb]
      simp
  | false =>
      rcases scan_invariant search text.toLower HARM_PATTERNS harm_patterns_pos with
        ⟨hdc, hhc, hnone⟩ | ⟨⟨cp0, hmem0, hm0, hdc0, hhc0⟩, hdom⟩
      · rw [checkContent_of_not_blank search text hb]
        simp [hdc]
      · have hnn : cp0.1 ≠ HarmCategory.none := harm_patterns_not_none cp0 hmem0
        rw [checkContent_of_not_blank search text hb]
        simp only [hdc0, hhc0]
        simp [hnn]

/-- C3: for every non-blank input text, the emitted category is a
matched category whose fixed priority weight dominates that of every
matched category (suicide_self_harm=1.0, self_harm=0.95, violence=0.9,
abuse=0.85, discrimination=0.8, substance_abuse=0.75); in particular a
text matching a self_harm rule and a substance_abuse rule (and no
suicide_self_harm rule, whose priority is higher still) yields
`category = self_harm`. -/
theorem c3_priority_ordering :
    (∀ (search : String → String → Option Bool) (text : String) (c : HarmCategory),
      pyBlank text = false → matchesCategory search text c = true →
        matchesCategory search text (checkContent search text).category = true ∧
        categoryPriority c ≤ categoryPriority (checkContent search text).category) ∧
    (∀ (search : String → String → Option Bool) (text : String),
      pyBlank text = false →
      matchesCategory search text HarmCategory.self_harm = true →
      matchesCategory search text HarmCategory.substance_abuse = true →
      matchesCategory search text HarmCategory.suicide_self_harm = false →
      (checkContent search text).category = HarmCategory.self_harm) := by
  constructor
  · intro search text c hb hm
    exact checkContent_dominates search text c hb hm
  · intro search text hb hsh hsa hsu
    obtain ⟨hmrc, hlerc⟩ := checkContent_dominates search text HarmCategory.self_harm hb hsh
    revert hmrc hlerc
    cases hcat : (checkContent search text).category <;> intro hmrc hlerc
    · exact absurd hlerc (by decide)
    · rw [hsu] at hmrc
      exact absurd hmrc (by decide)
    · rfl
    · exact absurd hlerc (by decide)
    · exact absurd hlerc (by decide)
    · exact absurd hlerc (by decide)
    · exact absurd hlerc (by decide)
    · exact absurd hlerc (by decide)

theorem c3_priority_ordering_witness :
    matchesCategory searchSelfSubstance "overdose"
      (checkContent searchSelfSubstance "overdose").category = true ∧
    (checkContent searchSelfSubstance "overdose").category = HarmCategory.self_harm :=
  ⟨(c3_priority_ordering.1 searchSelfSubstance "overdose" HarmCategory.self_harm
      (by decide) (by decide)).1,
   c3_priority_ordering.2 searchSelfSubstance "overdose"
      (by decide) (by decide) (by decide) (by decide)⟩

/-- C1: whenever the safety check flags a transcript as harmful, the
chat turn short-circuits: the classifier, phrase-selector and voice
modulator stages are skipped (the result below does not depend on
`modelAvailable`, `jsonLoads`, `analysisOutcome`, `genOutcome` or `k`),
the response text is the supportive message of the detected category —
with the primary helpline's name and phone appended exactly when the
category requires crisis resources and at least one helpline is
configured — and synthesis uses the fixed voice profile
stability 0.7, similarity_boost 0.75, style 0.1 for every persona. -/
theorem c1_safety_short_circuit :
    (∀ (search : String → String → Option Bool) (cache : ResourcesCache)
        (ps : PhraseStore) (synth : String → String → VoiceSettings → String)
        (modelAvailable : Bool) (jsonLoads : String → Except Unit JValue)
        (analysisOutcome genOutcome : GenOutcome) (k : Nat)
        (persona : Persona) (transcript : String),
      (checkContent search transcript).is_harmful = true →
        chatTurn search cache ps synth modelAvailable jsonLoads analysisOutcome
            genOutcome k persona transcript =
          .ok ⟨synth (format_response_with_resources cache
                  (checkContent search transcript).category)
                persona.voice_id safetyVoiceSettings,
              transcript, "seeking_advice",
              (if (checkContent search transcript).category =
                    HarmCategory.suicide_self_harm ∨
                  (checkContent search transcript).category = HarmCategory.self_harm
               then "anxious" else "frustrated"),
              format_response_with_resources cache
                (checkContent search transcript).category,
              (checkContent search transcript).confidence, true,
              some (checkContent search transcript).category.value⟩) ∧
    safetyVoiceSettings = ⟨centi 70, centi 75, centi 10⟩ ∧
    (∀ (cache : ResourcesCache) (c : HarmCategory), c ∈ CRISIS_CATEGORIES →
      ∀ (primary : Helpline) (rest : List Helpline),
        (get_crisis_resources cache c).helplines = primary :: rest →
        format_response_with_resources cache c =
          get_supportive_response cache c ++ "\n\nYou can reach out to " ++
            primary.name ++ " at " ++ primary.phone ++ ". " ++ primary.description) ∧
    (∀ (cache : ResourcesCache) (c : HarmCategory), c ∉ CRISIS_CATEGORIES →
      format_response_with_resources cache c = get_supportive_response cache c) ∧
    (∀ (cache : ResourcesCache) (c : HarmCategory), c ∈ CRISIS_CATEGORIES →
      (get_crisis_resources cache c).helplines = [] →
      format_response_with_resources cache c = get_supportive_response cache c) := by
  refine ⟨?_, rfl, ?_, ?_, ?_⟩
  · intro search cache ps synth modelAvailable jsonLoads analysisOutcome genOutcome k
      persona transcript hharm
    cases hpb : pyBlank transcript with
    | true =>
        rw [checkContent_of_blank search transcript hpb] at hharm
        simp at hharm
    | false =>
        simp only [chatTurn, hpb, Bool.false_eq_true, if_false, hharm, if_true]
  · intro cache c hc primary rest hhelp
    simp [format_response_with_resources, hc, hhelp]
  · intro cache c hc
    simp [format_response_with_resources, hc]
  · intro cache c hc hhelp
    simp [format_response_with_resources, hc, hhelp]

set_option maxRecDepth 10000 in
theorem c1_safety_short_circuit_witness :
    chatTurn searchAll defaultResources phraseStoreEmpty synthTag false jsonLoadsFail
        (GenOutcome.raised "") (GenOutcome.raised "") 0 cheerfulPersona
        "i feel suicidal" =
      .ok ⟨synthTag (format_response_with_resources defaultResources
              (checkContent searchAll "i feel suicidal").category)
            cheerfulPersona.voice_id safetyVoiceSettings,
          "i feel suicidal", "seeking_advice",
          (if (checkContent searchAll "i feel suicidal").category =
                HarmCategory.suicide_self_harm ∨
              (checkContent searchAll "i feel suicidal").category =
                HarmCategory.self_harm
           then "anxious" else "frustrated"),
          format_response_with_resources defaultResources
            (checkContent searchAll "i feel suicidal").category,
          (checkContent searchAll "i feel suicidal").confidence, true,
          some (checkContent searchAll "i feel suicidal").category.value⟩ :=
  c1_safety_short_circuit.1 searchAll defaultResources phraseStoreEmpty synthTag
    false jsonLoadsFail (GenOutcome.raised "") (GenOutcome.raised "") 0
    cheerfulPersona "i feel suicidal" (by decide)

/-! ## Classifier lemmas -/

theorem coerceIntent_mem (v : JValue) : coerceIntent v ∈ VALID_INTENTS := by
  cases v with
  | str s =>
      rw [coerceIntent]
      split_ifs with h
      · exact h
      · show "casual_chat" ∈ VALID_INTENTS
        decide
  | null => show "casual_chat" ∈ VALID_INTENTS; decide
  | boolean b => show "casual_chat" ∈ VALID_INTENTS; decide
  | num q => show "casual_chat" ∈ VALID_INTENTS; decide
  | arr xs => show "casual_chat" ∈ VALID_INTENTS; decide
  | obj kvs => show "casual_chat" ∈ VALID_INTENTS; decide

theorem coerceTone_mem (v : JValue) : coerceTone v ∈ VALID_TONES := by
  cases v with
  | str s =>
      rw [coerceTone]
      split_ifs with h
      · exact h
      · show "neutral" ∈ VALID_TONES
        decide
  | null => show "neutral" ∈ VALID_TONES; decide
  | boolean b => show "neutral" ∈ VALID_TONES; decide
  | num q => show "neutral" ∈ VALID_TONES; decide
  | arr xs => show "neutral" ∈ VALID_TONES; decide
  | obj kvs => show "neutral" ∈ VALID_TONES; decide

theorem analyze_eq_of_blank (jsonLoads : String → Except Unit JValue)
    (outcome : GenOutcome) (transcript : String) (hb : pyBlank transcript = true) :
    analyze_intent_and_tone true jsonLoads outcome transcript =
      Except.ok ⟨transcript, "casual_chat", "neutral", 0⟩ := by
  simp [analyze_intent_and_tone, hb]

theorem analyze_eq_of_raised (jsonLoads : String → Except Unit JValue)
    (msg transcript : String) (hb : pyBlank transcript = false) :
    analyze_intent_and_tone true jsonLoads (GenOutcome.raised msg) transcript =
      Except.error ("Failed to analyze intent/tone: " ++ msg) := by
  simp [analyze_intent_and_tone, hb]

theorem analyze_eq_of_returned (jsonLoads : String → Except Unit JValue)
    (rtext transcript : String) (hb : pyBlank transcript = false) :
    analyze_intent_and_tone true jsonLoads (GenOutcome.returned rtext) transcript =
      (match jsonLoads (extractPayload rtext) with
       | .error _ => Except.ok ⟨transcript, "casual_chat", "neutral", centi 30⟩
       | .ok (JValue.obj kvs) =>
           (match pyFloat ((jGet kvs "confidence").getD (JValue.num (centi 70))) with
            | .error _ =>
                Except.error "Failed to analyze intent/tone: invalid confidence value"
            | .ok confidence =>
                Except.ok ⟨transcript,
                  coerceIntent ((jGet kvs "intent").getD (JValue.str "casual_chat")),
                  coerceTone ((jGet kvs "tone").getD (JValue.str "neutral")),
                  min (max confidence 0) 1⟩)
       | .ok _ =>
           Except.error "Failed to analyze intent/tone: response is not a JSON object") := by
  simp [analyze_intent_and_tone, hb]

/-- C5: every analysis actually returned by the classifier has an
intent in the closed intent set and a tone in the closed tone set
(out-of-set backend values are coerced to casual_chat / neutral before
construction), and its confidence is clamped to [0, 1]. -/
theorem c5_classifier_closed_sets (modelAvailable : Bool)
    (jsonLoads : String → Except Unit JValue) (outcome : GenOutcome)
    (transcript : String) (a : IntentToneAnalysis)
    (h : analyze_intent_and_tone modelAvailable jsonLoads outcome transcript =
      Except.ok a) :
    a.intent ∈ VALID_INTENTS ∧ a.tone ∈ VALID_TONES ∧
    0 ≤ a.confidence ∧ a.confidence ≤ 1 := by
  cases modelAvailable with
  | false =>
      rw [show analyze_intent_and_tone false jsonLoads outcome transcript =
          Except.ok ⟨transcript, "casual_chat", "neutral", centi 50⟩ from rfl] at h
      injection h with h1
      subst h1
      refine ⟨?_, ?_, ?_, ?_⟩
      · show "casual_chat" ∈ VALID_INTENTS; decide
      · show "neutral" ∈ VALID_TONES; decide
      · show (0 : Rat) ≤ centi 50; decide
      · show (centi 50 : Rat) ≤ 1; decide
  | true =>
      cases hb : pyBlank transcript with
      | true =>
          rw [analyze_eq_of_blank jsonLoads outcome transcript hb] at h
          injection h with h1
          subst h1
          refine ⟨?_, ?_, ?_, ?_⟩
          · show "casual_chat" ∈ VALID_INTENTS; decide
          · show "neutral" ∈ VALID_TONES; decide
          · show (0 : Rat) ≤ 0; decide
          · show (0 : Rat) ≤ 1; decide
      | false =>
          cases outcome with
          | raised msg =>
              rw [analyze_eq_of_raised jsonLoads msg transcript hb] at h
              exact absurd h (by simp)
          | returned rtext =>
              rw [analyze_eq_of_returned jsonLoads rtext transcript hb] at h
              cases hj : jsonLoads (extractPayload rtext) with
              | error e =>
                  rw [hj] at h
                  injection h with h1
                  subst h1
                  refine ⟨?_, ?_, ?_, ?_⟩
                  · show "casual_chat" ∈ VALID_INTENTS; decide
                  · show "neutral" ∈ VALID_TONES; decide
                  · show (0 : Rat) ≤ centi 30; decide
                  · show (centi 30 : Rat) ≤ 1; decide
              | ok v =>
                  simp only [hj] at h
                  cases v with
                  | obj kvs =>
                      cases hp : pyFloat ((jGet kvs "confidence").getD
                          (JValue.num (centi 70))) with
                      | error e =>
                          simp only [hp] at h
                          exact absurd h (by simp)
                      | ok conf =>
                          simp only [hp] at h
                          injection h with h1
                          subst h1
                          refine ⟨coerceIntent_mem _, coerceTone_mem _, ?_, ?_⟩
                          · exact le_min (le_max_right conf 0) zero_le_one
                          · exact min_le_right _ _
                  | null => exact absurd h (by simp)
                  | boolean b => exact absurd h (by simp)
                  | num q => exact absurd h (by simp)
                  | str s => exact absurd h (by simp)
                  | arr xs => exact absurd h (by simp)

theorem c5_classifier_closed_sets_witness :
    ("casual_chat" : String) ∈ VALID_INTENTS ∧ ("neutral" : String) ∈ VALID_TONES ∧
    (0 : Rat) ≤ centi 50 ∧ (centi 50 : Rat) ≤ 1 :=
  c5_classifier_closed_sets false jsonLoadsFail (GenOutcome.raised "") "hi"
    ⟨"hi", "casual_chat", "neutral", centi 50⟩ (by rfl)

/-- C4 (counterexample): the claim says `AnalysisError` is raised only
when the external call itself errors, never for a malformed but
received response.  But a received response `"[1]"` — valid JSON that
is not an object — makes `result.get(...)` raise `AttributeError`,
which the generic `except` turns into `AnalysisError`. -/
theorem c4_analysis_error_counterexample :
    analyze_intent_and_tone true jsonLoadsArr (GenOutcome.returned "[1]") "hello" =
      Except.error "Failed to analyze intent/tone: response is not a JSON object" := by
  rfl

/-- C4 (amended): `AnalysisError` is raised exactly when the model is
configured, the transcript is non-blank, and either the external call
itself raised, or the received response decodes as JSON to a non-object
value or to an object whose `confidence` entry is not float-convertible
(only `json.JSONDecodeError` is absorbed).  A JSON-decode failure is
absorbed into the neutral default with confidence 0.3, an unavailable
backend returns confidence 0.5, and an empty transcript confidence 0.0. -/
theorem c4_analysis_error_conditions :
    (∀ (jsonLoads : String → Except Unit JValue) (outcome : GenOutcome)
        (transcript : String),
      analyze_intent_and_tone false jsonLoads outcome transcript =
        Except.ok ⟨transcript, "casual_chat", "neutral", centi 50⟩) ∧
    (∀ (jsonLoads : String → Except Unit JValue) (outcome : GenOutcome)
        (transcript : String), pyBlank transcript = true →
      analyze_intent_and_tone true jsonLoads outcome transcript =
        Except.ok ⟨transcript, "casual_chat", "neutral", 0⟩) ∧
    (∀ (jsonLoads : String → Except Unit JValue) (rtext transcript : String),
      pyBlank transcript = false →
      jsonLoads (extractPayload rtext) = Except.error () →
      analyze_intent_and_tone true jsonLoads (GenOutcome.returned rtext) transcript =
        Except.ok ⟨transcript, "casual_chat", "neutral", centi 30⟩) ∧
    (∀ (jsonLoads : String → Except Unit JValue) (outcome : GenOutcome)
        (transcript : String), pyBlank transcript = false →
      ((∃ e, analyze_intent_and_tone true jsonLoads outcome transcript =
          Except.error e) ↔
        ((∃ msg, outcome = GenOutcome.raised msg) ∨
         (∃ rtext, outcome = GenOutcome.returned rtext ∧
            badParsedResponse jsonLoads rtext)))) := by
  refine ⟨?_, ?_, ?_, ?_⟩
  · intro jsonLoads outcome transcript
    rfl
  · intro jsonLoads outcome transcript hb
    exact analyze_eq_of_blank jsonLoads outcome transcript hb
  · intro jsonLoads rtext transcript hb hj
    rw [analyze_eq_of_returned jsonLoads rtext transcript hb, hj]
  · intro jsonLoads outcome transcript hb
    cases outcome with
    | raised msg =>
        rw [analyze_eq_of_raised jsonLoads msg transcript hb]
        constructor
        · intro _
          exact Or.inl ⟨msg, rfl⟩
        · intro _
          exact ⟨"Failed to analyze intent/tone: " ++ msg, rfl⟩
    | returned rtext =>
        rw [analyze_eq_of_returned jsonLoads rtext transcript hb]
        cases hj : jsonLoads (extractPayload rtext) with
        | error e =>
            constructor
            · intro ⟨e2, he2⟩
              simp only [hj] at he2
              exact absurd he2 (by simp)
            · intro hr
              rcases hr with ⟨msg, hmsg⟩ | ⟨rt, hrt, hbad⟩
              · exact absurd hmsg (by simp)
              · obtain rfl : rt = rtext := by injection hrt.symm
                rw [badParsedResponse, hj] at hbad
                exact absurd hbad (by simp)
        | ok v =>
            cases v with
            | obj kvs =>
                cases hp : pyFloat ((jGet kvs "confidence").getD
                    (JValue.num (centi 70))) with
                | error e =>
                    simp only [hj, hp]
                    constructor
                    · intro _
                      refine Or.inr ⟨rtext, rfl, ?_⟩
                      rw [badParsedResponse, hj]
                      cases e
                      exact hp
                    · intro _
                      exact ⟨"Failed to analyze intent/tone: invalid confidence value", rfl⟩
                | ok conf =>
                    simp only [hj, hp]
                    constructor
                    · intro ⟨e2, he2⟩
                      exact absurd he2 (by simp)
                    · intro hr
                      rcases hr with ⟨msg, hmsg⟩ | ⟨rt, hrt, hbad⟩
                      · exact absurd hmsg (by simp)
                      · obtain rfl : rt = rtext := by injection hrt.symm
                        rw [badParsedResponse, hj] at hbad
                        simp only [hp] at hbad
                        exact absurd hbad (by simp)
            | null =>
                simp only [hj]
                constructor
                · intro _
                  refine Or.inr ⟨rtext, rfl, ?_⟩
                  rw [badParsedResponse, hj]
                  trivial
                · intro _
                  exact ⟨"Failed to analyze intent/tone: response is not a JSON object", rfl⟩
            | boolean b =>
                simp only [hj]
                constructor
                · intro _
                  refine Or.inr ⟨rtext, rfl, ?_⟩
                  rw [badParsedResponse, hj]
                  trivial
                · intro _
                  exact ⟨"Failed to analyze intent/tone: response is not a JSON object", rfl⟩
            | num q =>
                simp only [hj]
                constructor
                · intro _
                  refine Or.inr ⟨rtext, rfl, ?_⟩
                  rw [badParsedResponse, hj]
                  trivial
                · intro _
                  exact ⟨"Failed to analyze intent/tone: response is not a JSON object", rfl⟩
            | str s =>
                simp only [hj]
                constructor
                · intro _
                  refine Or.inr ⟨rtext, rfl, ?_⟩
                  rw [badParsedResponse, hj]
                  trivial
                · intro _
                  exact ⟨"Failed to analyze intent/tone: response is not a JSON object", rfl⟩
            | arr xs =>
                simp only [hj]
                constructor
                · intro _
                  refine Or.inr ⟨rtext, rfl, ?_⟩
                  rw [badParsedResponse, hj]
                  trivial
                · intro _
                  exact ⟨"Failed to analyze intent/tone: response is not a JSON object", rfl⟩

theorem c4_analysis_error_conditions_witness :
    analyze_intent_and_tone true jsonLoadsFail (GenOutcome.returned "x") "hi" =
      Except.ok ⟨"hi", "casual_chat", "neutral", centi 30⟩ :=
  c4_analysis_error_conditions.2.2.1 jsonLoadsFail "x" "hi" (by decide) (by rfl)

/-! ## Rounding and modulation lemmas -/

theorem ratFloor_eq_intFloor (q : Rat) : Rat.floor q = ⌊q⌋ := rfl

theorem half_eq : Rat.divInt 1 2 = (1 : Rat) / 2 := by
  rw [Rat.divInt_eq_div]
  norm_num

theorem frac_eq (q : Rat) : subQ q (Rat.divInt (Rat.floor q) 1) = Int.fract q := by
  rw [subQ_eq, ratFloor_eq_intFloor, Int.fract]
  congr 1
  rw [Rat.divInt_eq_div]
  norm_num

theorem roundHalfEven_ge (n : Int) (q : Rat) (h : (n : Rat) ≤ q) :
    n ≤ roundHalfEven q := by
  have hfl : n ≤ Rat.floor q := by
    rw [ratFloor_eq_intFloor]
    exact Int.le_floor.mpr h
  unfold roundHalfEven
  split_ifs with h1 h2 h3
  · exact hfl
  · omega
  · exact hfl
  · omega

theorem roundHalfEven_le (n : Int) (q : Rat) (h : q ≤ (n : Rat)) :
    roundHalfEven q ≤ n := by
  have hfl : Rat.floor q ≤ n := by
    rw [ratFloor_eq_intFloor]
    calc ⌊q⌋ ≤ ⌊(n : Rat)⌋ := Int.floor_mono h
    _ = n := Int.floor_intCast n
  have hsucc : Int.fract q ≠ 0 → Rat.floor q + 1 ≤ n := by
    intro hfr
    rcases lt_or_eq_of_le hfl with hlt | heq
    · omega
    · exfalso
      apply hfr
      have h1 : ((Rat.floor q : Int) : Rat) ≤ q := by
        rw [ratFloor_eq_intFloor]
        exact Int.floor_le q
      rw [heq] at h1
      have hq : q = (n : Rat) := le_antisymm h h1
      rw [hq]
      exact Int.fract_intCast n
  unfold roundHalfEven
  rw [frac_eq, half_eq]
  split_ifs with h1 h2 h3
  · exact hfl
  · apply hsucc
    have hpos : (0 : Rat) < Int.fract q := lt_trans (by norm_num) h2
    exact ne_of_gt hpos
  · exact hfl
  · apply hsucc
    have heq2 : Int.fract q = 1 / 2 := le_antisymm (not_lt.mp h2) (not_lt.mp h1)
    rw [heq2]
    norm_num

theorem round2_centi_bounds (a b : Int) (q : Rat) (hlo : centi a ≤ q)
    (hhi : q ≤ centi b) : centi a ≤ round2 q ∧ round2 q ≤ centi b := by
  have h100 : mulQ q (Rat.divInt 100 1) = q * 100 := by
    rw [mulQ_eq]
    norm_num [Rat.divInt_eq_div]
  have hga : ((a : Int) : Rat) ≤ q * 100 := by
    rw [centi_eq, div_le_iff (by norm_num : (0 : Rat) < 100)] at hlo
    exact hlo
  have hgb : q * 100 ≤ ((b : Int) : Rat) := by
    rw [centi_eq, le_div_iff (by norm_num : (0 : Rat) < 100)] at hhi
    exact hhi
  have h1 : a ≤ roundHalfEven (q * 100) := roundHalfEven_ge a _ hga
  have h2 : roundHalfEven (q * 100) ≤ b := roundHalfEven_le b _ hgb
  constructor
  · rw [round2, h100, centi_eq, Rat.divInt_eq_div]
    push_cast
    apply (div_le_div_right (by norm_num : (0 : Rat) < 100)).mpr
    exact_mod_cast h1
  · rw [round2, h100, centi_eq, Rat.divInt_eq_div]
    push_cast
    apply (div_le_div_right (by norm_num : (0 : Rat) < 100)).mpr
    exact_mod_cast h2

theorem round2_is_centi (q : Rat) : ∃ n : Int, round2 q = centi n :=
  ⟨roundHalfEven (mulQ q (Rat.divInt 100 1)), rfl⟩

theorem clampStability_bounds (x : Rat) :
    centi 10 ≤ clampStability x ∧ clampStability x ≤ centi 90 :=
  ⟨le_max_left _ _, max_le (by decide) (min_le_left _ _)⟩

theorem clampStyle_bounds (x : Rat) :
    0 ≤ clampStyle x ∧ clampStyle x ≤ centi 50 :=
  ⟨le_max_left _ _, max_le (by decide) (min_le_left _ _)⟩

theorem intentAdjust_bounds (intent : String) (x : Rat) (hlo : centi 10 ≤ x)
    (hhi : x ≤ centi 90) :
    centi 10 ≤ intentAdjust intent x ∧ intentAdjust intent x ≤ centi 90 := by
  unfold intentAdjust
  split_ifs with h1 h2
  · constructor
    · refine le_min ?_ (by decide)
      rw [addQ_eq]
      have h5 : (0 : Rat) ≤ centi 5 := by decide
      linarith
    · exact min_le_right _ _
  · exact ⟨le_trans hlo (le_max_left _ _), max_le hhi (by decide)⟩
  · exact ⟨hlo, hhi⟩

/-- C6: the voice-parameter modulator is a deterministic pure function
(modelled as a Lean function of `(persona, analysis)` alone, so equal
inputs give equal outputs by definition); for every tone/intent
combination and every persona, the resulting stability lies in
[0.1, 0.9] and the style in [0.0, 0.5]; similarity_boost passes through
from the persona untouched by any tone/intent modulation (only the
final 2-decimal rounding is applied, as to all three outputs). -/
theorem c6_voice_modulation (persona : Persona) (analysis : IntentToneAnalysis) :
    (centi 10 ≤ (compute_voice_settings persona analysis).stability ∧
      (compute_voice_settings persona analysis).stability ≤ centi 90) ∧
    (0 ≤ (compute_voice_settings persona analysis).style ∧
      (compute_voice_settings persona analysis).style ≤ centi 50) ∧
    (compute_voice_settings persona analysis).similarity_boost =
      round2 persona.base_similarity_boost ∧
    ((∃ n : Int, (compute_voice_settings persona analysis).stability = centi n) ∧
     (∃ n : Int, (compute_voice_settings persona analysis).similarity_boost = centi n) ∧
     (∃ n : Int, (compute_voice_settings persona analysis).style = centi n)) := by
  have hclamp := clampStability_bounds
    (addQ persona.base_stability (toneAdjustments analysis.tone).1)
  have hintent := intentAdjust_bounds analysis.intent _ hclamp.1 hclamp.2
  have hstab := round2_centi_bounds 10 90 _ hintent.1 hintent.2
  have hstycl := clampStyle_bounds
    (addQ persona.base_style (toneAdjustments analysis.tone).2)
  have hsty0 : centi 0 ≤ clampStyle
      (addQ persona.base_style (toneAdjustments analysis.tone).2) := by
    have hc0 : (centi 0 : Rat) = 0 := by decide
    rw [hc0]
    exact hstycl.1
  have hsty := round2_centi_bounds 0 50 _ hsty0 hstycl.2
  refine ⟨⟨hstab.1, hstab.2⟩, ⟨?_, hsty.2⟩, rfl,
    round2_is_centi _, round2_is_centi _, round2_is_centi _⟩
  have hc0 : (centi 0 : Rat) = 0 := by decide
  rw [← hc0]
  exact hsty.1

/-! ## Phrase-selector lemmas -/

theorem pyChoice_mem (k : Nat) (l : List String) (h : l ≠ []) : pyChoice k l ∈ l := by
  have hlen : 0 < l.length := List.length_pos.mpr h
  have hk : k % l.length < l.length := Nat.mod_lt _ hlen
  rw [pyChoice, List.getD_eq_getElem?_getD, List.getElem?_eq_getElem hk]
  exact List.getElem_mem hk

theorem mem_foldl_append {α β : Type} (f : β → List α) (L : List β) :
    ∀ (init : List α) (x : α),
    (x ∈ L.foldl (fun acc c => acc ++ f c) init ↔ x ∈ init ∨ ∃ c ∈ L, x ∈ f c) := by
  induction L with
  | nil =>
      intro init x
      simp
  | cons c rest ih =>
      intro init x
      rw [List.foldl_cons, ih (init ++ f c) x]
      simp [List.mem_append, or_assoc]

/-- C8: `select_phrase` never fails and always returns a non-empty
phrase, for every (tone, intent) pair — including combinations absent
from the fallback table — and every outcome of the random draw,
provided the loaded catalog contains no empty phrase (the loader only
stores non-empty lines); when the union over the selected categories is
empty it falls back to active_listening, and when that is empty too it
returns the fixed literal "I hear you". -/
theorem c8_select_phrase_total (ps : PhraseStore) (k : Nat) (tone intent : String)
    (hne : ∀ category p, p ∈ getCategoryPhrases ps category → p ≠ "") :
    select_phrase ps k tone intent ≠ "" ∧
    (phraseUnion ps tone intent = [] → ps.active_listening ≠ [] →
      select_phrase ps k tone intent ∈ ps.active_listening) ∧
    (phraseUnion ps tone intent = [] → ps.active_listening = [] →
      select_phrase ps k tone intent = "I hear you") := by
  by_cases hu : phraseUnion ps tone intent = []
  · by_cases ha : ps.active_listening = []
    · have hsel : select_phrase ps k tone intent = "I hear you" := by
        rw [select_phrase]
        rw [if_neg (by simp [hu]), if_neg (by simp [ha])]
      refine ⟨?_, ?_, ?_⟩
      · rw [hsel]
        decide
      · intro _ hal
        exact absurd ha hal
      · intro _ _
        exact hsel
    · have hsel : select_phrase ps k tone intent = pyChoice k ps.active_listening := by
        rw [select_phrase]
        rw [if_neg (by simp [hu]), if_pos ha]
      have hmem : select_phrase ps k tone intent ∈ ps.active_listening := by
        rw [hsel]
        exact pyChoice_mem k _ ha
      refine ⟨?_, ?_, ?_⟩
      · exact hne "active_listening" _ hmem
      · intro _ _
        exact hmem
      · intro _ hal
        exact absurd hal ha
  · have hsel : select_phrase ps k tone intent =
        pyChoice k (phraseUnion ps tone intent) := by
      rw [select_phrase]
      rw [if_pos hu]
    have hmem : select_phrase ps k tone intent ∈ phraseUnion ps tone intent := by
      rw [hsel]
      exact pyChoice_mem k _ hu
    obtain ⟨category, _, hmemc⟩ :=
      ((mem_foldl_append (getCategoryPhrases ps) (categoriesToUse tone intent) []
        (select_phrase ps k tone intent)).mp hmem).resolve_left (by simp)
    refine ⟨hne category _ hmemc, ?_, ?_⟩
    · intro h0
      exact absurd h0 hu
    · intro h0
      exact absurd h0 hu

theorem getCategoryPhrases_empty (category : String) :
    getCategoryPhrases phraseStoreEmpty category = [] := by
  rw [getCategoryPhrases]
  split_ifs <;> rfl

theorem c8_select_phrase_total_witness :
    select_phrase phraseStoreEmpty 0 "neutral" "casual_chat" ≠ "" ∧
    (phraseUnion phraseStoreEmpty "neutral" "casual_chat" = [] →
      phraseStoreEmpty.active_listening ≠ [] →
      select_phrase phraseStoreEmpty 0 "neutral" "casual_chat" ∈
        phraseStoreEmpty.active_listening) ∧
    (phraseUnion phraseStoreEmpty "neutral" "casual_chat" = [] →
      phraseStoreEmpty.active_listening = [] →
      select_phrase phraseStoreEmpty 0 "neutral" "casual_chat" = "I hear you") :=
  c8_select_phrase_total phraseStoreEmpty 0 "neutral" "casual_chat"
    (by
      intro category p hp
      rw [getCategoryPhrases_empty] at hp
      exact absurd hp (List.not_mem_nil p))

/-! ## Persona-store lemmas -/

theorem applyUpdate_is_default (p : Persona) (u : PersonaUpdate) :
    (applyUpdate p u).is_default = p.is_default := rfl

theorem countDefaults_nil : countDefaults [] = 0 := rfl

theorem countDefaults_cons (p : Persona) (s : List Persona) :
    countDefaults (p :: s) =
      (if p.is_default then 1 else 0) + countDefaults s := by
  rw [countDefaults, countDefaults, List.filter_cons]
  cases hp : p.is_default with
  | false => simp [hp]
  | true => simp [hp, Nat.add_comm]

theorem countDefaults_append (s t : List Persona) :
    countDefaults (s ++ t) = countDefaults s + countDefaults t := by
  rw [countDefaults, countDefaults, countDefaults, List.filter_append,
    List.length_append]

theorem countDefaults_map (f : Persona → Persona)
    (hf : ∀ p, (f p).is_default = p.is_default) (s : List Persona) :
    countDefaults (s.map f) = countDefaults s := by
  induction s with
  | nil => rfl
  | cons q rest ih =>
      rw [List.map_cons, countDefaults_cons, countDefaults_cons, hf, ih]

theorem countDefaults_eq_zero (s : List Persona)
    (h : ∀ q ∈ s, q.is_default = false) : countDefaults s = 0 := by
  induction s with
  | nil => rfl
  | cons q rest ih =>
      rw [countDefaults_cons, h q (List.mem_cons_self q rest)]
      simpa using ih (fun p hp => h p (List.mem_cons_of_mem q hp))

theorem countDefaults_filter_ne (pid : String) : ∀ (s : List Persona),
    (∀ p ∈ s, p.id = pid → p.is_default = false) →
    countDefaults (s.filter fun q => q.id ≠ pid) = countDefaults s := by
  intro s
  induction s with
  | nil => intro _; rfl
  | cons q rest ih =>
      intro h2
      have hrest := fun p hp => h2 p (List.mem_cons_of_mem q hp)
      rw [List.filter_cons]
      by_cases hid : q.id = pid
      · have hdef : q.is_default = false := h2 q (List.mem_cons_self q rest) hid
        rw [if_neg (by simp [hid]), countDefaults_cons, hdef, ih hrest]
        simp
      · rw [if_pos (by simp [hid]), countDefaults_cons, countDefaults_cons, ih hrest]

/-- C7 (counterexample): the claim says exactly one persona is marked
default at all times, across every delete.  But deleting the default
persona while another persona remains leaves a non-empty store with
zero defaults (the re-seed happens only when the store empties, and the
repair only on the next `get_default` read). -/
theorem c7_default_persona_counterexample :
    countDefaults (deletePersona (createPersona initStore "custom-1" "Custom"
        "prompt" Option.none (centi 50) (centi 75) 0) "default-cheerful") = 0 ∧
    deletePersona (createPersona initStore "custom-1" "Custom" "prompt"
        Option.none (centi 50) (centi 75) 0) "default-cheerful" ≠ [] := by
  constructor
  · decide
  · decide

theorem countDefaults_replace : ∀ (s : List Persona),
    (∀ q ∈ s, q.is_default = false) → (s.map Persona.id).Nodup →
    (s.any fun q => q.id == "default-cheerful") = true →
    countDefaults (s.map fun q =>
      if q.id == "default-cheerful" then cheerfulPersona else q) = 1 := by
  intro s
  induction s with
  | nil =>
      intro _ _ hany
      simp at hany
  | cons q rest ih =>
      intro hnodef hnodup hany
      rw [List.map_cons]
      by_cases hq : q.id = "default-cheerful"
      · rw [if_pos (by simp [hq]), countDefaults_cons]
        have hrest_id : ∀ x ∈ rest, x.id ≠ "default-cheerful" := by
          intro x hx hxid
          have : q.id ∈ rest.map Persona.id := by
            rw [hq, ← hxid]
            exact List.mem_map_of_mem Persona.id hx
          exact (List.nodup_cons.mp hnodup).1 this
        have hmapid : (rest.map fun q =>
            if q.id == "default-cheerful" then cheerfulPersona else q) = rest := by
          rw [List.map_congr_left (g := id), List.map_id]
          intro x hx
          simp [hrest_id x hx]
        rw [hmapid, countDefaults_eq_zero rest
          (fun p hp => hnodef p (List.mem_cons_of_mem q hp))]
        rfl
      · rw [if_neg (by simp [hq]), countDefaults_cons,
          hnodef q (List.mem_cons_self q rest)]
        have hany2 : (rest.any fun x => x.id == "default-cheerful") = true := by
          rcases List.any_eq_true.mp hany with ⟨x, hx, hxid⟩
          rcases List.mem_cons.mp hx with rfl | hxr
          · exact absurd (by simpa using hxid) hq
          · exact List.any_eq_true.mpr ⟨x, hxr, hxid⟩
        rw [ih (fun p hp => hnodef p (List.mem_cons_of_mem q hp))
          (List.nodup_cons.mp hnodup).2 hany2]
        simp

theorem countDefaults_getDefault (s : List Persona) (hle : countDefaults s ≤ 1)
    (hnodup : (s.map Persona.id).Nodup) :
    countDefaults (getDefaultPersona s).2 = 1 := by
  cases hf : s.find? (fun p => p.is_default) with
  | some p =>
      have hstate : (getDefaultPersona s).2 = s := by
        rw [getDefaultPersona, hf]
      have hmem : p ∈ s := List.mem_of_find?_eq_some hf
      have hdef : p.is_default = true := by
        have := List.find?_some hf
        simpa using this
      have hge : 1 ≤ countDefaults s := by
        have : p ∈ s.filter fun q => q.is_default :=
          List.mem_filter.mpr ⟨hmem, hdef⟩
        have := List.length_pos.mpr (List.ne_nil_of_mem this)
        exact this
      rw [hstate]
      omega
  | none =>
      have hnodef : ∀ q ∈ s, q.is_default = false := by
        intro q hq
        have := List.find?_eq_none.mp hf q hq
        simpa using this
      have hstate : (getDefaultPersona s).2 = storeInsert s cheerfulPersona := by
        rw [getDefaultPersona, hf]
        rfl
      rw [hstate, storeInsert]
      by_cases hany : (s.any fun q => q.id == cheerfulPersona.id) = true
      · rw [if_pos hany]
        exact countDefaults_replace s hnodef hnodup hany
      · rw [if_neg hany, countDefaults_append, countDefaults_eq_zero s hnodef]
        rfl

theorem deleteEvery_eq : ∀ (s : List Persona), s ≠ [] →
    (s.map Persona.id).Nodup → deleteEvery s = [cheerfulPersona] := by
  intro s
  induction s with
  | nil =>
      intro hne _
      exact absurd rfl hne
  | cons p rest ih =>
      intro _ hnodup
      cases rest with
      | nil =>
          show (List.foldl deletePersona [p] [p.id]) = [cheerfulPersona]
          rw [List.foldl_cons]
          have hstep : deletePersona [p] p.id = [cheerfulPersona] := by
            simp [deletePersona, initializeDefaultPersona, storeInsert]
          rw [hstep]
          rfl
      | cons q rest2 =>
          show (List.foldl deletePersona (p :: q :: rest2)
            ((p :: q :: rest2).map Persona.id)) = [cheerfulPersona]
          rw [List.map_cons, List.foldl_cons]
          have htail_ne : ∀ x ∈ q :: rest2, x.id ≠ p.id := by
            intro x hx hxid
            have : p.id ∈ (q :: rest2).map Persona.id := by
              rw [← hxid]
              exact List.mem_map_of_mem Persona.id hx
            exact (List.nodup_cons.mp hnodup).1 this
          have hanyp : ((p :: q :: rest2).any fun x => x.id == p.id) = true :=
            List.any_eq_true.mpr ⟨p, List.mem_cons_self _ _, by simp⟩
          have hfil : ((p :: q :: rest2).filter fun x => x.id ≠ p.id) =
              q :: rest2 := by
            rw [List.filter_cons, if_neg (by simp)]
            rw [List.filter_eq_self]
            intro x hx
            simp [htail_ne x hx]
          have hstep : deletePersona (p :: q :: rest2) p.id = q :: rest2 := by
            rw [deletePersona, if_pos hanyp, hfil, if_neg (by simp)]
          rw [hstep]
          exact ih (by simp) (List.nodup_cons.mp hnodup).2

/-- C7 (amended): exactly one persona is marked default after
initialisation, and this is preserved by create (with a fresh id), by
update (which cannot touch `is_default`), by deleting a persona that is
not the default, and by deleting the only remaining persona (which
re-seeds the default).  Deleting the default persona while others
remain leaves zero defaults (the counterexample) until the next
`get_default` read, which re-seeds so that exactly one default exists;
in particular after deleting every persona the store is exactly the
re-seeded default, so exactly one default exists on the next read. -/
theorem c7_default_persona_amended :
    countDefaults initStore = 1 ∧
    (∀ (s : List Persona) (newId name bp : String) (vid : Option String)
        (bst bsb bsty : Rat), (s.any fun q => q.id == newId) = false →
      countDefaults (createPersona s newId name bp vid bst bsb bsty) =
        countDefaults s) ∧
    (∀ (s : List Persona) (pid : String) (u : PersonaUpdate),
      countDefaults (updatePersona s pid u) = countDefaults s) ∧
    (∀ (s : List Persona) (pid : String), countDefaults s = 1 →
      (∀ p ∈ s, p.id = pid → p.is_default = false) →
      countDefaults (deletePersona s pid) = 1) ∧
    (∀ p : Persona, countDefaults (deletePersona [p] p.id) = 1) ∧
    (∀ s : List Persona, countDefaults s ≤ 1 → (s.map Persona.id).Nodup →
      countDefaults (getDefaultPersona s).2 = 1) ∧
    (∀ s : List Persona, s ≠ [] → (s.map Persona.id).Nodup →
      deleteEvery s = [cheerfulPersona]) ∧
    countDefaults [cheerfulPersona] = 1 := by
  refine ⟨by decide, ?_, ?_, ?_, ?_, countDefaults_getDefault, deleteEvery_eq,
    by decide⟩
  · intro s newId name bp vid bst bsb bsty h
    rw [createPersona.eq_def, storeInsert]
    rw [if_neg (by simpa using h), countDefaults_append]
    have : countDefaults [(⟨newId, name, bp,
        (match vid with
         | some v => if v = "" then "21m00Tcm4TlvDq8ikWAM" else v
         | Option.none => "21m00Tcm4TlvDq8ikWAM"),
        bst, bsb, bsty, false⟩ : Persona)] = 0 := rfl
    rw [this]
    omega
  · intro s pid u
    rw [updatePersona]
    exact countDefaults_map _ (fun p => by
      by_cases h : p.id == pid
      · simp [h, applyUpdate_is_default]
      · simp [h]) s
  · intro s pid h1 h2
    rw [deletePersona]
    by_cases hany : (s.any fun q => q.id == pid) = true
    · rw [if_pos hany]
      have hcnt := countDefaults_filter_ne pid s h2
      by_cases hrem : (s.filter fun q => q.id ≠ pid) = []
      · exfalso
        rw [hrem, countDefaults_nil, h1] at hcnt
        exact Nat.zero_ne_one hcnt
      · rw [if_neg hrem, hcnt, h1]
    · rw [if_neg hany]
      exact h1
  · intro p
    simp [deletePersona, initializeDefaultPersona, storeInsert, countDefaults,
      cheerfulPersona]

theorem c7_default_persona_amended_witness :
    deleteEvery (createPersona initStore "custom-1" "Custom" "prompt"
      Option.none (centi 50) (centi 75) 0) = [cheerfulPersona] :=
  c7_default_persona_amended.2.2.2.2.2.2.1
    (createPersona initStore "custom-1" "Custom" "prompt" Option.none
      (centi 50) (centi 75) 0) (by decide) (by decide)
